import Mathlib

/-!
Verification of the oalpaca chat session/state controller
(`src/hooks/useChat.ts`, `src/hooks/useWorkspace.ts`, `src/hooks/useFolder.ts`).

The TypeScript hooks are shallowly embedded: each React `useState` slot
becomes a field of `SessionState`, each action becomes a pure function from
state (and, where the action awaits a backend call, the call's result) to
state.  Backend (Tauri/Rust) commands are not part of the front-end source
slice, so their effect on persistent data is modelled from the spec's
interface contract where a claim needs it (see `Backend`).
-/

namespace Oalpaca

/-- `ChatMessage` from `types/chat.ts`. -/
structure ChatMessage where
  role : String
  content : String
deriving Repr, DecidableEq

/-- `ChatStreamEvent` from `types/chat.ts`: one streamed chunk. -/
structure ChatStreamEvent where
  chat_id : String
  content : String
  done : Bool
  done_reason : Option String
deriving Repr, DecidableEq

/-- `ChatStreamError` from `types/chat.ts`. -/
structure ChatStreamError where
  chat_id : String
  error : String
deriving Repr, DecidableEq

/-- `ChatMeta` from `types/chat.ts` (the variant with workspace and folder
back-references, which is the one `useChat` reads `folder_id` from). -/
structure ChatMeta where
  id : String
  chat_title : String
  file_location : String
  model_used : String
  workspace_id : String
  folder_id : Option String
  created_at : String
  last_updated_at : String
deriving Repr, DecidableEq

/-- `WorkspaceMeta` from `types/workspace.ts`. -/
structure WorkspaceMeta where
  id : String
  name : String
  created_at : String
  last_updated_at : String
deriving Repr, DecidableEq

/-- `FolderMeta` from `types/folder.ts`. -/
structure FolderMeta where
  id : String
  name : String
  workspace_id : String
  chat_ids : List String
  tags : List String
  created_at : String
  last_updated_at : String
deriving Repr, DecidableEq

/-- The combined client state: every `useState` slot of `useChat` plus the
state of its sub-hooks `useWorkspace` (workspaces, activeWorkspaceId) and
`useFolder` (folders).  `streamingContent` models both `streamingContentRef`
and the mirrored `streamingContent` state, which the code keeps equal at the
end of every handler. -/
structure SessionState where
  messages : List ChatMessage
  inputValue : String
  selectedModel : String
  isStreaming : Bool
  currentChatId : Option String
  streamingContent : String
  error : Option String
  chatHistory : List ChatMeta
  searchQuery : String
  searchResults : Option (List ChatMeta)
  workspaces : List WorkspaceMeta
  activeWorkspaceId : String
  folders : List FolderMeta
deriving Repr, DecidableEq

/-- Initial values of the `useState` hooks (`useState([])`, `useState("")`,
`useState(false)`, `useState(null)` and so on). -/
def initialSessionState : SessionState where
  messages := []
  inputValue := ""
  selectedModel := ""
  isStreaming := false
  currentChatId := none
  streamingContent := ""
  error := none
  chatHistory := []
  searchQuery := ""
  searchResults := none
  workspaces := []
  activeWorkspaceId := ""
  folders := []

/-- One backend IPC request, as issued through `invoke(...)`.  Tracking the
issued calls lets theorems state "no backend call is made" and "exactly these
calls, in this order". -/
inductive BackendCall where
  | sendChatMessage (chatId : Option String) (model : String) (message : String)
      (workspaceId : Option String)
  | getChatMessages (chatId : String)
  | getChatsForWorkspace (workspaceId : String)
  | getFoldersForWorkspace (workspaceId : String)
  | searchChatsCmd (workspaceId : String) (query : String)
  | removeChatFromFolderCmd (folderId : String) (chatId : String)
  | addChatToFolder (folderId : String) (chatId : String)
  | deleteChatCmd (chatId : String)
  | deleteWorkspaceCmd (workspaceId : String)
  | getAllWorkspaces
deriving Repr, DecidableEq

/-- Modelled from the spec: the backend process's persistent data, which is
not part of the front-end source slice.  §3 of the spec: chats and folders
belong to exactly one workspace, a chat's `folder_id` is a single optional
back-reference, and exactly one workspace is active. -/
structure Backend where
  workspaces : List WorkspaceMeta
  active_workspace_id : String
  chats : List ChatMeta
  folders : List FolderMeta
deriving Repr, DecidableEq

/-- Modelled from the spec: `get_chats_for_workspace` returns the ChatMeta
records of the given workspace. -/
def Backend.chatsForWorkspace (b : Backend) (wsId : String) : List ChatMeta :=
  b.chats.filter (fun c => c.workspace_id == wsId)

/-- Modelled from the spec: `get_folders_for_workspace` returns the folders
owned by the given workspace. -/
def Backend.foldersForWorkspace (b : Backend) (wsId : String) : List FolderMeta :=
  b.folders.filter (fun f => f.workspace_id == wsId)

/-- Per-chat effect of removing a chat from a folder: clear the folder
back-reference when it is this chat and it points at this folder. -/
def removeFolderRef (folderId chatId : String) (c : ChatMeta) : ChatMeta :=
  if c.id == chatId && c.folder_id == some folderId then
    { c with folder_id := none } else c

/-- Per-chat effect of adding a chat to a folder: set the folder
back-reference when it is this chat. -/
def setFolderRef (folderId chatId : String) (c : ChatMeta) : ChatMeta :=
  if c.id == chatId then { c with folder_id := some folderId } else c

/-- Modelled from the spec: `remove_chat_from_folder_cmd` clears the chat's
folder back-reference when it currently points at the given folder. -/
def Backend.removeChatFromFolder (b : Backend) (folderId chatId : String) : Backend :=
  { b with chats := b.chats.map (removeFolderRef folderId chatId) }

/-- Modelled from the spec: `add_chat_to_folder` sets the chat's folder
back-reference to the given folder (a chat is in at most one folder). -/
def Backend.addChatToFolder (b : Backend) (folderId chatId : String) : Backend :=
  { b with chats := b.chats.map (setFolderRef folderId chatId) }

/-- Modelled from the spec: `delete_chat` removes the chat record. -/
def Backend.deleteChat (b : Backend) (chatId : String) : Backend :=
  { b with chats := b.chats.filter (fun c => c.id != chatId) }

/-- Modelled from the spec: `delete_workspace` removes the workspace with its
chats and folders and, when the deleted workspace was the active one,
atomically designates a remaining workspace as the new active one (§3).  The
spec does not fix which remaining workspace is chosen; the first remaining one
stands for the backend's choice. -/
def Backend.deleteWorkspace (b : Backend) (wsId : String) : Backend :=
  let remaining := b.workspaces.filter (fun w => w.id != wsId)
  { workspaces := remaining
    active_workspace_id :=
      if b.active_workspace_id == wsId then
        ((remaining.head?).map (fun w => w.id)).getD ""
      else b.active_workspace_id
    chats := b.chats.filter (fun c => c.workspace_id != wsId)
    folders := b.folders.filter (fun f => f.workspace_id != wsId) }

/-- `refreshChatHistory` (useChat): no-op when the resolved workspace id is
empty, otherwise replaces the chat-history cache wholesale with what the
backend reports (the failure branch only logs). -/
def refreshChatHistory (s : SessionState) (b : Backend) (wsId : Option String) :
    SessionState :=
  let id := wsId.getD s.activeWorkspaceId
  if id == "" then s
  else { s with chatHistory := b.chatsForWorkspace id }

/-- `refreshFolders` (useFolder): no-op when the resolved workspace id is
empty, otherwise replaces the folder cache wholesale. -/
def refreshFolders (s : SessionState) (b : Backend) (wsId : Option String) :
    SessionState :=
  let id := wsId.getD s.activeWorkspaceId
  if id == "" then s
  else { s with folders := b.foldersForWorkspace id }

/-- The `chat-stream-chunk` handler (useChat streaming listener).  While
`done=false` the content is appended to the accumulator; on `done=true` the
final content is appended once more, the accumulated text is committed as a
single assistant message, and accumulator and streaming flag are cleared.
The `done` branch additionally starts an asynchronous chat-history refresh
(`get_all_workspaces` then `get_chats_for_workspace`), modelled separately by
`refreshChatHistory`. -/
def handleStreamChunk (s : SessionState) (ev : ChatStreamEvent) : SessionState :=
  if ev.done = false then
    { s with streamingContent := s.streamingContent ++ ev.content }
  else
    { s with
      messages := s.messages ++
        [{ role := "assistant", content := s.streamingContent ++ ev.content }]
      streamingContent := ""
      isStreaming := false }

/-- The `chat-stream-error` handler: records the backend error verbatim,
clears the streaming flag and discards the accumulator. -/
def handleStreamError (s : SessionState) (ev : ChatStreamError) : SessionState :=
  { s with
    error := some ev.error
    isStreaming := false
    streamingContent := "" }

/-- `resetChatState`: clears messages, current chat id, streaming
accumulator, search query and search results.  (It does not touch the
`isStreaming` flag; `startNewChat` clears that separately.) -/
def resetChatState (s : SessionState) : SessionState :=
  { s with
    messages := []
    currentChatId := none
    streamingContent := ""
    searchQuery := ""
    searchResults := none }

/-- `startNewChat`: `resetChatState` plus clearing the error and the
streaming flag. -/
def startNewChat (s : SessionState) : SessionState :=
  { resetChatState s with error := none, isStreaming := false }

/-- ASCII whitespace stripped by JavaScript's `String.prototype.trim`
(the Unicode additions play no role here). -/
def isJsWhitespace (c : Char) : Bool :=
  c = ' ' || c = '\t' || c = '\n' || c = '\r' ||
  c = Char.ofNat 11 || c = Char.ofNat 12

/-- `text.trim()` of JavaScript: strip whitespace from both ends. -/
def jsTrim (s : String) : String :=
  String.mk (((s.data.dropWhile isJsWhitespace).reverse.dropWhile
    isJsWhitespace).reverse)

/-- The guard of `sendMessage`: `!trimmed || isStreaming || !selectedModel`. -/
def sendMessageBlocked (s : SessionState) (text : String) : Bool :=
  jsTrim text == "" || s.isStreaming || s.selectedModel == ""

/-- The synchronous prefix of `sendMessage`, up to and including issuing the
`send_chat_message` call: clears the error, raises the streaming flag, resets
the accumulator, optimistically appends the trimmed user message, clears the
input buffer.  `activeWorkspaceId || null` sends `null` for an empty id. -/
def sendMessageStart (s : SessionState) (text : String) :
    SessionState × List BackendCall :=
  if sendMessageBlocked s text then (s, [])
  else
    ({ s with
        error := none
        isStreaming := true
        streamingContent := ""
        messages := s.messages ++ [{ role := "user", content := jsTrim text }]
        inputValue := "" },
     [BackendCall.sendChatMessage s.currentChatId s.selectedModel (jsTrim text)
        (if s.activeWorkspaceId == "" then none else some s.activeWorkspaceId)])

/-- Resolution of the awaited `send_chat_message` call: on success the
returned chat id is adopted, on failure the error is recorded and the
streaming flag cleared. -/
def sendMessageResolve (s : SessionState) (resp : Except String String) :
    SessionState :=
  match resp with
  | Except.ok chatId => { s with currentChatId := some chatId }
  | Except.error e => { s with error := some e, isStreaming := false }

/-- `sendMessage(text)` end to end, with the backend's response passed in
explicitly; when the guard fires, no call is issued and the state is
untouched. -/
def sendMessage (s : SessionState) (text : String) (resp : Except String String) :
    SessionState × List BackendCall :=
  let r := sendMessageStart s text
  if r.2.isEmpty then r else (sendMessageResolve r.1 resp, r.2)

/-- `loadChat(chatId)`: on success replaces the message list wholesale, sets
the current chat id, clears accumulator and error, and restores the model
from the cached ChatMeta when present; on failure records the error. -/
def loadChat (s : SessionState) (chatId : String)
    (resp : Except String (List ChatMessage)) : SessionState :=
  match resp with
  | Except.ok chatMessages =>
      let s1 := { s with
        messages := chatMessages
        currentChatId := some chatId
        streamingContent := ""
        error := none }
      match s.chatHistory.find? (fun c => c.id == chatId) with
      | some meta => { s1 with selectedModel := meta.model_used }
      | none => s1
  | Except.error e => { s with error := some e }

/-- `searchChats(query)`: stores the raw query; with no active workspace or a
blank query, clears results to `none` without calling the backend; otherwise
stores the backend's array on success and clears to `none` on failure. -/
def searchChats (s : SessionState) (query : String)
    (resp : Except String (List ChatMeta)) : SessionState × List BackendCall :=
  let s0 := { s with searchQuery := query }
  if s.activeWorkspaceId == "" || jsTrim query == "" then
    ({ s0 with searchResults := none }, [])
  else
    match resp with
    | Except.ok results =>
        ({ s0 with searchResults := some results },
         [BackendCall.searchChatsCmd s.activeWorkspaceId query])
    | Except.error _ =>
        ({ s0 with searchResults := none },
         [BackendCall.searchChatsCmd s.activeWorkspaceId query])

/-- `deleteChatAction(chatId)` on the backend-success path: delete, refresh
the chat-history and folder caches, then clear the open message list and
current chat id only when the deleted chat is the open one. -/
def deleteChatAction (s : SessionState) (b : Backend) (chatId : String) :
    SessionState × Backend :=
  let b1 := b.deleteChat chatId
  let s1 := refreshChatHistory s b1 none
  let s2 := refreshFolders s1 b1 none
  if s.currentChatId == some chatId then
    ({ s2 with messages := [], currentChatId := none }, b1)
  else (s2, b1)

/-- The refresh calls issued by `refreshChatHistory()` followed by
`refreshFolders()` with no explicit workspace argument. -/
def refreshCalls (wsId : String) : List BackendCall :=
  if wsId == "" then []
  else [BackendCall.getChatsForWorkspace wsId, BackendCall.getFoldersForWorkspace wsId]

/-- `moveChatToFolderAction(chatId, newFolderId)` on the backend-success
path: no-op when the chat is not in the cache; otherwise remove from the
current folder when there is one, add to the target folder, then refresh both
caches. -/
def moveChatToFolderAction (s : SessionState) (b : Backend)
    (chatId newFolderId : String) : SessionState × Backend × List BackendCall :=
  match s.chatHistory.find? (fun c => c.id == chatId) with
  | none => (s, b, [])
  | some chat =>
      let r1 : Backend × List BackendCall :=
        match chat.folder_id with
        | some fid =>
            (b.removeChatFromFolder fid chatId,
             [BackendCall.removeChatFromFolderCmd fid chatId])
        | none => (b, [])
      let b2 := r1.1.addChatToFolder newFolderId chatId
      let s1 := refreshChatHistory s b2 none
      let s2 := refreshFolders s1 b2 none
      (s2, b2,
       r1.2 ++ [BackendCall.addChatToFolder newFolderId chatId] ++
         refreshCalls s.activeWorkspaceId)

/-- `refreshWorkspaces` (useWorkspace), success path: replaces the workspace
list and active id wholesale with the backend's report and returns the active
id. -/
def refreshWorkspaces (s : SessionState) (b : Backend) : SessionState × String :=
  ({ s with workspaces := b.workspaces, activeWorkspaceId := b.active_workspace_id },
   b.active_workspace_id)

/-- `deleteWorkspaceAction` of useWorkspace, success path: delete the
workspace, then `refreshWorkspaces`, returning the backend-resolved new
active workspace id. -/
def deleteWorkspaceBase (s : SessionState) (b : Backend) (wsId : String) :
    SessionState × Backend × String :=
  let b1 := b.deleteWorkspace wsId
  let r := refreshWorkspaces s b1
  (r.1, b1, r.2)

/-- `deleteWorkspaceAction` of useChat, success path: delegate to the store,
and when the returned new active id is non-empty refresh the folder cache and
the chat-history cache scoped to it, then `resetChatState`. -/
def deleteWorkspaceAction (s : SessionState) (b : Backend) (wsId : String) :
    SessionState × Backend :=
  let r := deleteWorkspaceBase s b wsId
  let s2 :=
    if r.2.2 == "" then r.1
    else refreshChatHistory (refreshFolders r.1 r.2.1 (some r.2.2)) r.2.1 (some r.2.2)
  (resetChatState s2, r.2.1)

/-- Derived view `chatsByFolder(folderId)`: chats of the cache whose
`folder_id` strictly equals the given id. -/
def chatsByFolder (s : SessionState) (folderId : String) : List ChatMeta :=
  s.chatHistory.filter (fun c => c.folder_id == some folderId)

/-- Derived view `looseChats`: chats whose `folder_id` is falsy (null, or the
empty string under JavaScript truthiness). -/
def looseChats (s : SessionState) : List ChatMeta :=
  s.chatHistory.filter (fun c => (c.folder_id.getD "") == "")

/-!
## Streaming-listener effect lifecycle (useChat streaming useEffect)

Each run of the effect body is one *instance*: it captures a fresh local
`cancelled` flag and two nullable unlisten handles, `await`s the two
`listen(...)` calls in order, and at the end of the body unsubscribes
immediately if its cleanup already ran.  The cleanup sets `cancelled` and
calls whichever unlisten handles are already non-null.  React runs the
cleanup of an instance before mounting the next one, so at any time at most
one instance has `cancelled = false`.
-/

/-- One run of the streaming-listener effect body.  `stage` tracks progress
through the body: 0 = the `chat-stream-chunk` `listen` call is pending, 1 =
the `chat-stream-error` `listen` call is pending, 2 = the body finished.
`chunkRegistered` / `errorRegistered` say whether the corresponding handler
is currently registered with the event bus (handle non-null and not yet
unsubscribed). -/
structure EffInstance where
  cancelled : Bool
  chunkRegistered : Bool
  errorRegistered : Bool
  stage : Nat
deriving Repr, DecidableEq

/-- A freshly mounted instance: flag clear, both handles null, first
`listen` pending. -/
def EffInstance.fresh : EffInstance :=
  { cancelled := false, chunkRegistered := false, errorRegistered := false, stage := 0 }

/-- The effect cleanup: `cancelled = true; unlistenChunk?.(); unlistenError?.()`
— sets the flag and unregisters whatever handles exist. -/
def EffInstance.runCleanup (inst : EffInstance) : EffInstance :=
  { inst with cancelled := true, chunkRegistered := false, errorRegistered := false }

/-- Resolution of the pending `listen("chat-stream-chunk", ...)` call: the
handle is stored (handler registered) and the body proceeds; the body does
not check `cancelled` at this point. -/
def EffInstance.resolveChunkListen (inst : EffInstance) : EffInstance :=
  if inst.stage == 0 then { inst with chunkRegistered := true, stage := 1 }
  else inst

/-- Resolution of the pending `listen("chat-stream-error", ...)` call: the
handle is stored, and the body's final `if (cancelled)` check immediately
unsubscribes both handlers when the cleanup already ran. -/
def EffInstance.resolveErrorListen (inst : EffInstance) : EffInstance :=
  if inst.stage == 1 then
    if inst.cancelled then
      { inst with chunkRegistered := false, errorRegistered := false, stage := 2 }
    else
      { inst with errorRegistered := true, stage := 2 }
  else inst

/-- Events of the effect lifecycle.  The `Nat` indexes the instance (in
mount order) whose pending `listen` call resolves. -/
inductive EffEvent where
  | mount
  | unmount
  | chunkListenResolved (i : Nat)
  | errorListenResolved (i : Nat)
deriving Repr, DecidableEq

/-- Apply `f` to the element at position `i`. -/
def updateAt (f : EffInstance → EffInstance) : List EffInstance → Nat → List EffInstance
  | [], _ => []
  | inst :: rest, 0 => f inst :: rest
  | inst :: rest, n + 1 => inst :: updateAt f rest n

/-- One lifecycle step.  A mount only happens when every earlier instance has
been cleaned up (React runs the previous cleanup before re-running the
effect); an unmount runs the cleanup of the instance that is still open. -/
def effStep (insts : List EffInstance) : EffEvent → List EffInstance
  | EffEvent.mount =>
      if insts.all (fun i => i.cancelled) then insts ++ [EffInstance.fresh]
      else insts
  | EffEvent.unmount =>
      insts.map (fun i => if i.cancelled then i else i.runCleanup)
  | EffEvent.chunkListenResolved i => updateAt EffInstance.resolveChunkListen insts i
  | EffEvent.errorListenResolved i => updateAt EffInstance.resolveErrorListen insts i

/-- Run a whole lifecycle trace from the initial (no instance) state. -/
def effRun (evs : List EffEvent) : List EffInstance :=
  evs.foldl effStep []

/-- Number of chunk handlers that are *active*: registered with the event
bus and able to act (the installed handler body starts with
`if (cancelled) return`). -/
def activeChunkHandlers (insts : List EffInstance) : Nat :=
  insts.countP (fun i => i.chunkRegistered && !i.cancelled)

/-- Number of active error handlers. -/
def activeErrorHandlers (insts : List EffInstance) : Nat :=
  insts.countP (fun i => i.errorRegistered && !i.cancelled)

/-- Delivery of one `chat-stream-chunk` event: the event bus invokes every
registered handler; a handler whose instance was cancelled returns without
touching the state. -/
def deliverChunk (insts : List EffInstance) (s : SessionState)
    (ev : ChatStreamEvent) : SessionState :=
  insts.foldl
    (fun st inst =>
      if inst.chunkRegistered && !inst.cancelled then handleStreamChunk st ev else st)
    s

/-- Number of instances whose cleanup has not run. -/
def uncancelledCount (insts : List EffInstance) : Nat :=
  insts.countP (fun i => !i.cancelled)

theorem cancelled_resolveChunkListen (x : EffInstance) :
    x.resolveChunkListen.cancelled = x.cancelled := by
  unfold EffInstance.resolveChunkListen
  split <;> rfl

theorem cancelled_resolveErrorListen (x : EffInstance) :
    x.resolveErrorListen.cancelled = x.cancelled := by
  unfold EffInstance.resolveErrorListen
  split
  · split <;> rfl
  · rfl

theorem countP_updateAt (p : EffInstance → Bool) (f : EffInstance → EffInstance)
    (hf : ∀ x, p (f x) = p x) :
    ∀ (l : List EffInstance) (n : Nat), (updateAt f l n).countP p = l.countP p
  | [], _ => rfl
  | _ :: _, 0 => by simp [updateAt, List.countP_cons, hf]
  | _ :: rest, n + 1 => by
      simp [updateAt, List.countP_cons, countP_updateAt p f hf rest n]

/-- Every lifecycle step preserves the React invariant that at most one
effect instance is still open (its cleanup not yet run). -/
theorem uncancelledCount_effStep (insts : List EffInstance) (ev : EffEvent)
    (h : uncancelledCount insts ≤ 1) : uncancelledCount (effStep insts ev) ≤ 1 := by
  cases ev with
  | mount =>
      simp only [effStep]
      by_cases hall : insts.all (fun i => i.cancelled) = true
      · have h0 : insts.countP (fun i => !i.cancelled) = 0 := by
          rw [List.countP_eq_zero]
          intro a ha
          have := List.all_eq_true.mp hall a ha
          simp [this]
        simp [hall, uncancelledCount, List.countP_append, h0, EffInstance.fresh]
      · simpa [hall] using h
  | unmount =>
      have h0 : uncancelledCount
          (insts.map fun i => if i.cancelled then i else i.runCleanup) = 0 := by
        rw [uncancelledCount, List.countP_eq_zero]
        intro a ha
        obtain ⟨x, _, rfl⟩ := List.mem_map.mp ha
        by_cases hc : x.cancelled <;> simp [hc, EffInstance.runCleanup]
      simpa [effStep] using Nat.le_of_eq h0 |>.trans (Nat.zero_le 1) |>.trans (le_refl 1)
  | chunkListenResolved i =>
      have heq := countP_updateAt (fun j => !j.cancelled) EffInstance.resolveChunkListen
        (fun x => by show (!x.resolveChunkListen.cancelled) = (!x.cancelled)
                     rw [cancelled_resolveChunkListen]) insts i
      simpa [effStep, uncancelledCount, heq] using h
  | errorListenResolved i =>
      have heq := countP_updateAt (fun j => !j.cancelled) EffInstance.resolveErrorListen
        (fun x => by show (!x.resolveErrorListen.cancelled) = (!x.cancelled)
                     rw [cancelled_resolveErrorListen]) insts i
      simpa [effStep, uncancelledCount, heq] using h

/-- Any reachable lifecycle state has at most one open effect instance. -/
theorem uncancelledCount_effRun (evs : List EffEvent) :
    uncancelledCount (effRun evs) ≤ 1 := by
  suffices h : ∀ s : List EffInstance, uncancelledCount s ≤ 1 →
      uncancelledCount (List.foldl effStep s evs) ≤ 1 by
    exact h [] (by simp [uncancelledCount])
  induction evs with
  | nil => intro s hs; simpa using hs
  | cons ev rest ih =>
      intro s hs
      exact ih (effStep s ev) (uncancelledCount_effStep s ev hs)

theorem activeChunkHandlers_le (insts : List EffInstance) :
    activeChunkHandlers insts ≤ uncancelledCount insts := by
  apply List.countP_mono_left
  intro x _ hx
  simp only [Bool.and_eq_true] at hx
  exact hx.2

theorem activeErrorHandlers_le (insts : List EffInstance) :
    activeErrorHandlers insts ≤ uncancelledCount insts := by
  apply List.countP_mono_left
  intro x _ hx
  simp only [Bool.and_eq_true] at hx
  exact hx.2

/-- Delivering one chunk event runs the real chunk handler once per active
handler. -/
theorem deliverChunk_eq_iterate (ev : ChatStreamEvent) :
    ∀ (insts : List EffInstance) (s : SessionState),
      deliverChunk insts s ev =
        (fun st => handleStreamChunk st ev)^[activeChunkHandlers insts] s := by
  intro insts
  induction insts with
  | nil => intro s; rfl
  | cons inst rest ih =>
      intro s
      by_cases h : (inst.chunkRegistered && !inst.cancelled) = true
      · have hc : activeChunkHandlers (inst :: rest) = activeChunkHandlers rest + 1 := by
          simp [activeChunkHandlers, List.countP_cons, h]
        have hl : deliverChunk (inst :: rest) s ev =
            deliverChunk rest (handleStreamChunk s ev) ev := by
          unfold deliverChunk
          rw [List.foldl_cons, if_pos h]
        rw [hl, ih, hc, Function.iterate_succ_apply]
      · have hc : activeChunkHandlers (inst :: rest) = activeChunkHandlers rest := by
          simp [activeChunkHandlers, List.countP_cons, h]
        have hl : deliverChunk (inst :: rest) s ev = deliverChunk rest s ev := by
          unfold deliverChunk
          rw [List.foldl_cons, if_neg h]
        rw [hl, ih, hc]

/-! ## Claims -/

/-- Claim C1: over every sequence of streaming-listener effect setups and
teardowns — including a teardown requested while the asynchronous `listen`
call of a setup is still pending — at most one chunk handler and one error
handler are ever active, so delivering one (non-terminal) chunk event updates
the streaming accumulator by exactly that chunk's content, exactly once (and
not at all when no listener is active). -/
theorem C1_single_active_listener (evs : List EffEvent) (s : SessionState)
    (ev : ChatStreamEvent) (hdone : ev.done = false) :
    activeChunkHandlers (effRun evs) ≤ 1 ∧
    activeErrorHandlers (effRun evs) ≤ 1 ∧
    deliverChunk (effRun evs) s ev =
      (if activeChunkHandlers (effRun evs) = 0 then s
       else { s with streamingContent := s.streamingContent ++ ev.content }) := by
  have hun := uncancelledCount_effRun evs
  have h1 := le_trans (activeChunkHandlers_le (effRun evs)) hun
  have h2 := le_trans (activeErrorHandlers_le (effRun evs)) hun
  refine ⟨h1, h2, ?_⟩
  rw [deliverChunk_eq_iterate]
  rcases Nat.le_one_iff_eq_zero_or_eq_one.mp h1 with h0 | h01
  · simp [h0]
  · simp [h01, handleStreamChunk, hdone]

/-- A lifecycle trace in which the first setup is torn down while both of its
`listen` calls are still pending, a second setup then runs to completion, and
the first setup's `listen` calls resolve only afterwards. -/
def cancelBeforeResolveTrace : List EffEvent :=
  [EffEvent.mount, EffEvent.unmount, EffEvent.mount,
   EffEvent.chunkListenResolved 1, EffEvent.errorListenResolved 1,
   EffEvent.chunkListenResolved 0, EffEvent.errorListenResolved 0]

theorem C1_single_active_listener_witness :
    (⟨"c1", "Hel", false, none⟩ : ChatStreamEvent).done = false ∧
    (activeChunkHandlers (effRun cancelBeforeResolveTrace) ≤ 1 ∧
     activeErrorHandlers (effRun cancelBeforeResolveTrace) ≤ 1 ∧
     deliverChunk (effRun cancelBeforeResolveTrace) initialSessionState
         ⟨"c1", "Hel", false, none⟩ =
       (if activeChunkHandlers (effRun cancelBeforeResolveTrace) = 0 then
          initialSessionState
        else { initialSessionState with
          streamingContent := initialSessionState.streamingContent ++ "Hel" })) :=
  ⟨rfl, C1_single_active_listener cancelBeforeResolveTrace initialSessionState
    ⟨"c1", "Hel", false, none⟩ rfl⟩

/-- Claim C2: delivering the chunk events `{content:"Hel",done:false}`,
`{content:"lo",done:false}`, `{content:"!",done:true}` to the chunk handler,
starting from an empty message list and empty accumulator, appends exactly
one assistant message `{role:"assistant", content:"Hello!"}` (the done
chunk's content included) and leaves the accumulator empty and the streaming
flag false. -/
theorem C2_three_chunk_scenario (s : SessionState) (cid : String)
    (hmsg : s.messages = []) (hacc : s.streamingContent = "") :
    let s3 := handleStreamChunk
      (handleStreamChunk (handleStreamChunk s ⟨cid, "Hel", false, none⟩)
        ⟨cid, "lo", false, none⟩)
      ⟨cid, "!", true, none⟩
    s3.messages = [{ role := "assistant", content := "Hello!" }] ∧
    s3.streamingContent = "" ∧
    s3.isStreaming = false := by
  simp [handleStreamChunk, hmsg, hacc]

theorem C2_three_chunk_scenario_witness :
    initialSessionState.messages = [] ∧
    initialSessionState.streamingContent = "" ∧
    (let s3 := handleStreamChunk
      (handleStreamChunk (handleStreamChunk initialSessionState ⟨"c1", "Hel", false, none⟩)
        ⟨"c1", "lo", false, none⟩)
      ⟨"c1", "!", true, none⟩
     s3.messages = [{ role := "assistant", content := "Hello!" }] ∧
     s3.streamingContent = "" ∧
     s3.isStreaming = false) :=
  ⟨rfl, rfl, C2_three_chunk_scenario initialSessionState "c1" rfl rfl⟩

/-- Claim C3: `sendMessage(text)` is a silent no-op (no backend call, no
state change) when the text trims to empty, a stream is in progress, or no
model is selected; otherwise, before the backend call is issued, it clears
the prior error, raises the streaming flag, resets the accumulator, appends
exactly the one trimmed user message, and clears the input buffer — and it
issues exactly the one `send_chat_message` call. -/
theorem C3_sendMessage_guards (s : SessionState) (text : String)
    (resp : Except String String) :
    ((jsTrim text = "" ∨ s.isStreaming = true ∨ s.selectedModel = "") →
      sendMessage s text resp = (s, [])) ∧
    (jsTrim text ≠ "" → s.isStreaming = false → s.selectedModel ≠ "" →
      sendMessageStart s text =
        ({ s with
            error := none
            isStreaming := true
            streamingContent := ""
            messages := s.messages ++ [{ role := "user", content := jsTrim text }]
            inputValue := "" },
         [BackendCall.sendChatMessage s.currentChatId s.selectedModel (jsTrim text)
            (if s.activeWorkspaceId == "" then none else some s.activeWorkspaceId)])) := by
  constructor
  · intro hguard
    have hb : sendMessageBlocked s text = true := by
      rcases hguard with h | h | h <;> simp [sendMessageBlocked, h]
    simp [sendMessage, sendMessageStart, hb]
  · intro h1 h2 h3
    have hb : sendMessageBlocked s text = false := by
      simp [sendMessageBlocked, h1, h2, h3]
    simp [sendMessageStart, hb]

theorem C3_sendMessage_guards_witness :
    (jsTrim "   " = "" ∨ initialSessionState.isStreaming = true ∨
       initialSessionState.selectedModel = "") ∧
    sendMessage initialSessionState "   " (Except.ok "c9") = (initialSessionState, []) ∧
    (jsTrim " hi " ≠ "" ∧
     { initialSessionState with selectedModel := "m1" }.isStreaming = false ∧
     { initialSessionState with selectedModel := "m1" }.selectedModel ≠ "" ∧
     sendMessageStart { initialSessionState with selectedModel := "m1" } " hi " =
       ({ initialSessionState with
            selectedModel := "m1"
            error := none
            isStreaming := true
            streamingContent := ""
            messages := [{ role := "user", content := "hi" }]
            inputValue := "" },
        [BackendCall.sendChatMessage none "m1" "hi" none])) := by
  refine ⟨Or.inl (by decide), ?_, by decide, rfl, by decide, ?_⟩
  · exact (C3_sendMessage_guards initialSessionState "   " (Except.ok "c9")).1
      (Or.inl (by decide))
  · have h := (C3_sendMessage_guards { initialSessionState with selectedModel := "m1" }
      " hi " (Except.ok "c9")).2 (by decide) rfl (by decide)
    simpa [initialSessionState] using h

/-- Claim C6: on a `chat-stream-error` event the handler records the
backend's error string verbatim, clears the streaming flag, discards the
accumulator, and leaves the message list (and the rest of the state)
unchanged. -/
theorem C6_stream_error_handler (s : SessionState) (ev : ChatStreamError) :
    (handleStreamError s ev).error = some ev.error ∧
    (handleStreamError s ev).isStreaming = false ∧
    (handleStreamError s ev).streamingContent = "" ∧
    (handleStreamError s ev).messages = s.messages ∧
    (handleStreamError s ev).currentChatId = s.currentChatId ∧
    (handleStreamError s ev).chatHistory = s.chatHistory ∧
    (handleStreamError s ev).inputValue = s.inputValue ∧
    (handleStreamError s ev).selectedModel = s.selectedModel := by
  simp [handleStreamError]

/-- A cached ChatMeta used in concrete scenarios. -/
def sampleMeta : ChatMeta where
  id := "c1"
  chat_title := "t"
  file_location := "loc"
  model_used := "m2"
  workspace_id := "w1"
  folder_id := none
  created_at := "a"
  last_updated_at := "b"

/-- A state with an ongoing search and an in-flight stream, used to probe
what `loadChat` actually clears. -/
def searchActiveState : SessionState :=
  { initialSessionState with
      chatHistory := [sampleMeta]
      searchQuery := "q"
      searchResults := some [sampleMeta]
      isStreaming := true }

/-- Counterexample to claim C4 as stated: after a successful
`loadChat("c1")` from a state with an active search and an in-flight stream,
neither the search state nor the `isStreaming` flag is cleared — the code
only resets the streaming accumulator and the error. -/
theorem C4_counterexample :
    ¬ ((loadChat searchActiveState "c1" (Except.ok [])).searchResults = none ∧
       (loadChat searchActiveState "c1" (Except.ok [])).searchQuery = "" ∧
       (loadChat searchActiveState "c1" (Except.ok [])).isStreaming = false) := by
  decide

/-- Claim C4, amended: for every chatId whose backend fetch succeeds,
`loadChat(chatId)` replaces the message list wholesale with exactly the
backend's returned array, sets `currentChatId`, clears the streaming
accumulator and the error, and sets `selectedModel` to the cached ChatMeta's
`model_used` (unchanged when the id is not in the cache); the search state
and the `isStreaming` flag are left unchanged. -/
theorem C4_loadChat_amended (s : SessionState) (chatId : String)
    (msgs : List ChatMessage) :
    let s1 := loadChat s chatId (Except.ok msgs)
    s1.messages = msgs ∧
    s1.currentChatId = some chatId ∧
    s1.streamingContent = "" ∧
    s1.error = none ∧
    s1.searchQuery = s.searchQuery ∧
    s1.searchResults = s.searchResults ∧
    s1.isStreaming = s.isStreaming ∧
    s1.chatHistory = s.chatHistory ∧
    (∀ meta, s.chatHistory.find? (fun c => c.id == chatId) = some meta →
      s1.selectedModel = meta.model_used) ∧
    (s.chatHistory.find? (fun c => c.id == chatId) = none →
      s1.selectedModel = s.selectedModel) := by
  cases hfind : s.chatHistory.find? (fun c => c.id == chatId) <;>
    simp [loadChat, hfind]

theorem C4_loadChat_amended_witness :
    (loadChat searchActiveState "c1" (Except.ok [{ role := "user", content := "x" }])).messages
        = [{ role := "user", content := "x" }] ∧
    (loadChat searchActiveState "c1" (Except.ok [{ role := "user", content := "x" }])).selectedModel
        = "m2" ∧
    (loadChat searchActiveState "c1" (Except.ok [{ role := "user", content := "x" }])).searchQuery
        = "q" := by
  have h := C4_loadChat_amended searchActiveState "c1" [{ role := "user", content := "x" }]
  exact ⟨h.1, h.2.2.2.2.2.2.2.2.1 sampleMeta (by decide), h.2.2.2.2.1⟩

/-- Claim C5: `searchChats(query)` stores the raw query; with a blank query
or no active workspace it clears results to `null` without issuing a call;
on backend success it stores the returned array (possibly empty); on backend
failure it clears results to `null`. -/
theorem C5_searchChats (s : SessionState) (query : String)
    (resp : Except String (List ChatMeta)) :
    (searchChats s query resp).1.searchQuery = query ∧
    ((jsTrim query = "" ∨ s.activeWorkspaceId = "") →
      (searchChats s query resp).1.searchResults = none ∧
      (searchChats s query resp).2 = []) ∧
    (jsTrim query ≠ "" → s.activeWorkspaceId ≠ "" →
      (∀ results, resp = Except.ok results →
        (searchChats s query resp).1.searchResults = some results) ∧
      (∀ e, resp = Except.error e →
        (searchChats s query resp).1.searchResults = none)) := by
  refine ⟨?_, ?_, ?_⟩
  · by_cases hg : (s.activeWorkspaceId == "" || jsTrim query == "") = true
    · simp [searchChats, hg]
    · cases resp <;> simp [searchChats, hg]
  · intro hor
    have hg : (s.activeWorkspaceId == "" || jsTrim query == "") = true := by
      rcases hor with h | h <;> simp [h]
    simp [searchChats, hg]
  · intro h1 h2
    have hg : (s.activeWorkspaceId == "" || jsTrim query == "") = false := by
      simp [h1, h2]
    constructor
    · intro results hr
      subst hr
      simp [searchChats, hg]
    · intro e hr
      subst hr
      simp [searchChats, hg]

/-- A state scoped to an active workspace. -/
def wsActiveState : SessionState :=
  { initialSessionState with activeWorkspaceId := "w1" }

theorem C5_searchChats_witness :
    (searchChats wsActiveState "" (Except.ok [])).1.searchResults = none ∧
    (searchChats wsActiveState "" (Except.ok [])).2 = [] ∧
    (searchChats wsActiveState "x" (Except.ok [])).1.searchResults = some [] ∧
    (searchChats wsActiveState "x" (Except.error "boom")).1.searchResults = none := by
  have h1 := (C5_searchChats wsActiveState "" (Except.ok [])).2.1 (Or.inl (by decide))
  have h2 := (C5_searchChats wsActiveState "x" (Except.ok [])).2.2 (by decide) (by decide)
  have h3 := (C5_searchChats wsActiveState "x" (Except.error "boom")).2.2
    (by decide) (by decide)
  exact ⟨h1.1, h1.2, h2.1 [] rfl, h3.2 "boom" rfl⟩

/-- Claim C7: when `sendMessage` passes its guards but the backend call
fails, the error is recorded verbatim, the streaming flag is cleared, the
optimistically appended user message is not rolled back, and the current
chat id is unchanged — and the call was in fact issued. -/
theorem C7_send_failure (s : SessionState) (text e : String)
    (h1 : jsTrim text ≠ "") (h2 : s.isStreaming = false) (h3 : s.selectedModel ≠ "") :
    (sendMessage s text (Except.error e)).1.error = some e ∧
    (sendMessage s text (Except.error e)).1.isStreaming = false ∧
    (sendMessage s text (Except.error e)).1.messages =
      s.messages ++ [{ role := "user", content := jsTrim text }] ∧
    (sendMessage s text (Except.error e)).1.currentChatId = s.currentChatId ∧
    (sendMessage s text (Except.error e)).2 ≠ [] := by
  have hb : sendMessageBlocked s text = false := by
    simp [sendMessageBlocked, h1, h2, h3]
  simp [sendMessage, sendMessageStart, sendMessageResolve, hb]

theorem C7_send_failure_witness :
    jsTrim "hi" ≠ "" ∧
    { initialSessionState with selectedModel := "m1" }.isStreaming = false ∧
    { initialSessionState with selectedModel := "m1" }.selectedModel ≠ "" ∧
    ((sendMessage { initialSessionState with selectedModel := "m1" } "hi"
        (Except.error "boom")).1.error = some "boom" ∧
     (sendMessage { initialSessionState with selectedModel := "m1" } "hi"
        (Except.error "boom")).1.isStreaming = false ∧
     (sendMessage { initialSessionState with selectedModel := "m1" } "hi"
        (Except.error "boom")).1.messages =
       { initialSessionState with selectedModel := "m1" }.messages ++
         [{ role := "user", content := jsTrim "hi" }] ∧
     (sendMessage { initialSessionState with selectedModel := "m1" } "hi"
        (Except.error "boom")).1.currentChatId =
       { initialSessionState with selectedModel := "m1" }.currentChatId ∧
     (sendMessage { initialSessionState with selectedModel := "m1" } "hi"
        (Except.error "boom")).2 ≠ []) :=
  ⟨by decide, rfl, by decide,
   C7_send_failure { initialSessionState with selectedModel := "m1" } "hi" "boom"
     (by decide) rfl (by decide)⟩

/-- Claim C10: after a successful `deleteChatAction(chatId)`, when the
deleted chat is not the open one the message list and current chat id are
untouched and only the chat-history and folder caches change (refreshed to
what the backend reports); when it is the open one, the message list is
cleared and the current chat id nulled. -/
theorem C10_deleteChat_frame (s : SessionState) (b : Backend) (chatId : String)
    (hws : s.activeWorkspaceId ≠ "") :
    let r := deleteChatAction s b chatId
    (s.currentChatId ≠ some chatId →
      r.1.messages = s.messages ∧ r.1.currentChatId = s.currentChatId) ∧
    (s.currentChatId = some chatId →
      r.1.messages = [] ∧ r.1.currentChatId = none) ∧
    r.1.chatHistory = (b.deleteChat chatId).chatsForWorkspace s.activeWorkspaceId ∧
    r.1.folders = (b.deleteChat chatId).foldersForWorkspace s.activeWorkspaceId ∧
    r.1.inputValue = s.inputValue ∧
    r.1.selectedModel = s.selectedModel ∧
    r.1.isStreaming = s.isStreaming ∧
    r.1.streamingContent = s.streamingContent ∧
    r.1.error = s.error ∧
    r.1.searchQuery = s.searchQuery ∧
    r.1.searchResults = s.searchResults ∧
    r.1.workspaces = s.workspaces ∧
    r.1.activeWorkspaceId = s.activeWorkspaceId := by
  have hbe : (s.activeWorkspaceId == "") = false := by simp [hws]
  by_cases hcur : (s.currentChatId == some chatId) = true
  · have hc : s.currentChatId = some chatId := by simpa using hcur
    simp [deleteChatAction, refreshChatHistory, refreshFolders, hbe, hcur, hc]
  · have hc : s.currentChatId ≠ some chatId := by simpa using hcur
    simp [deleteChatAction, refreshChatHistory, refreshFolders, hbe, hcur, hc]

/-- A concrete backend owning one workspace with one chat and no folder. -/
def sampleBackend : Backend where
  workspaces := [{ id := "w1", name := "ws", created_at := "a", last_updated_at := "b" }]
  active_workspace_id := "w1"
  chats := [sampleMeta]
  folders := []

theorem C10_deleteChat_frame_witness :
    { wsActiveState with currentChatId := some "c1" }.activeWorkspaceId ≠ "" ∧
    ((deleteChatAction { wsActiveState with currentChatId := some "c1" }
        sampleBackend "c1").1.messages = [] ∧
     (deleteChatAction { wsActiveState with currentChatId := some "c1" }
        sampleBackend "c1").1.currentChatId = none) ∧
    ((deleteChatAction { wsActiveState with currentChatId := some "c1" }
        sampleBackend "c2").1.currentChatId = some "c1") := by
  have h1 := C10_deleteChat_frame { wsActiveState with currentChatId := some "c1" }
    sampleBackend "c1" (by decide)
  have h2 := C10_deleteChat_frame { wsActiveState with currentChatId := some "c1" }
    sampleBackend "c2" (by decide)
  exact ⟨by decide, h1.2.1 rfl, (h2.1 (by decide)).2⟩

theorem removeFolderRef_id (folderId chatId : String) (c : ChatMeta) :
    (removeFolderRef folderId chatId c).id = c.id := by
  unfold removeFolderRef
  split <;> rfl

theorem removeFolderRef_workspace (folderId chatId : String) (c : ChatMeta) :
    (removeFolderRef folderId chatId c).workspace_id = c.workspace_id := by
  unfold removeFolderRef
  split <;> rfl

theorem setFolderRef_id (folderId chatId : String) (c : ChatMeta) :
    (setFolderRef folderId chatId c).id = c.id := by
  unfold setFolderRef
  split <;> rfl

theorem setFolderRef_workspace (folderId chatId : String) (c : ChatMeta) :
    (setFolderRef folderId chatId c).workspace_id = c.workspace_id := by
  unfold setFolderRef
  split <;> rfl

theorem setFolderRef_folder_of_id (folderId chatId : String) (c : ChatMeta)
    (h : c.id = chatId) :
    (setFolderRef folderId chatId c).folder_id = some folderId := by
  unfold setFolderRef
  rw [if_pos (by simp [h])]

/-- After `add_chat_to_folder(B, chatId)`, every chat record carrying that id
points at folder B. -/
theorem mem_map_setFolderRef (B chatId : String) (l : List ChatMeta) :
    ∀ c ∈ l.map (setFolderRef B chatId), c.id = chatId → c.folder_id = some B := by
  intro c hc hid
  obtain ⟨d, _, rfl⟩ := List.mem_map.mp hc
  by_cases h : (d.id == chatId) = true
  · unfold setFolderRef
    rw [if_pos h]
  · unfold setFolderRef at hid ⊢
    rw [if_neg (by simpa using h)] at hid ⊢
    exact absurd (by simp [hid]) h

/-- Claim C8: moving a chat that the cache shows in folder A to folder B
issues exactly the two mutation calls, remove-from-A then add-to-B, followed
by the chat-history and folder cache refreshes; both caches afterwards equal
what the backend reports, folder A's view no longer contains the chat, and
folder B's view contains it whenever the backend holds that chat in the
active workspace. -/
theorem C8_moveChat (s : SessionState) (b : Backend) (chatId A B : String)
    (chat : ChatMeta)
    (hfind : s.chatHistory.find? (fun c => c.id == chatId) = some chat)
    (hfold : chat.folder_id = some A)
    (hAB : A ≠ B)
    (hws : s.activeWorkspaceId ≠ "") :
    (moveChatToFolderAction s b chatId B).2.2 =
      [BackendCall.removeChatFromFolderCmd A chatId,
       BackendCall.addChatToFolder B chatId,
       BackendCall.getChatsForWorkspace s.activeWorkspaceId,
       BackendCall.getFoldersForWorkspace s.activeWorkspaceId] ∧
    (moveChatToFolderAction s b chatId B).1.chatHistory =
      (moveChatToFolderAction s b chatId B).2.1.chatsForWorkspace s.activeWorkspaceId ∧
    (moveChatToFolderAction s b chatId B).1.folders =
      (moveChatToFolderAction s b chatId B).2.1.foldersForWorkspace s.activeWorkspaceId ∧
    (∀ c ∈ chatsByFolder (moveChatToFolderAction s b chatId B).1 A, c.id ≠ chatId) ∧
    (∀ c0 ∈ b.chats, c0.id = chatId → c0.workspace_id = s.activeWorkspaceId →
      ∃ c ∈ chatsByFolder (moveChatToFolderAction s b chatId B).1 B, c.id = chatId) := by
  have hbe : (s.activeWorkspaceId == "") = false := by simp [hws]
  have hmv : moveChatToFolderAction s b chatId B =
      ({ s with
           chatHistory :=
             ((b.removeChatFromFolder A chatId).addChatToFolder B chatId).chatsForWorkspace
               s.activeWorkspaceId
           folders :=
             ((b.removeChatFromFolder A chatId).addChatToFolder B chatId).foldersForWorkspace
               s.activeWorkspaceId },
       (b.removeChatFromFolder A chatId).addChatToFolder B chatId,
       [BackendCall.removeChatFromFolderCmd A chatId,
        BackendCall.addChatToFolder B chatId,
        BackendCall.getChatsForWorkspace s.activeWorkspaceId,
        BackendCall.getFoldersForWorkspace s.activeWorkspaceId]) := by
    simp [moveChatToFolderAction, hfind, hfold, refreshChatHistory, refreshFolders,
      refreshCalls, hbe]
  rw [hmv]
  refine ⟨rfl, rfl, rfl, ?_, ?_⟩
  · intro c hc hid
    rw [chatsByFolder, List.mem_filter] at hc
    obtain ⟨hmem, hfd⟩ := hc
    rw [Backend.chatsForWorkspace, List.mem_filter] at hmem
    obtain ⟨hmem2, _⟩ := hmem
    have hB : c.folder_id = some B := by
      have := mem_map_setFolderRef B chatId (b.removeChatFromFolder A chatId).chats
      exact this c hmem2 hid
    rw [hB] at hfd
    simp only [Option.some.injEq, beq_iff_eq] at hfd
    exact hAB (hfd.symm)
  · intro c0 hc0 hid hws0
    refine ⟨setFolderRef B chatId (removeFolderRef A chatId c0), ?_, ?_⟩
    · rw [chatsByFolder, List.mem_filter]
      constructor
      · rw [Backend.chatsForWorkspace, List.mem_filter]
        constructor
        · exact List.mem_map_of_mem _ (List.mem_map_of_mem _ hc0)
        · rw [setFolderRef_workspace, removeFolderRef_workspace, hws0]
          simp
      · rw [setFolderRef_folder_of_id]
        · simp
        · rw [removeFolderRef_id]
          exact hid
    · rw [setFolderRef_id, removeFolderRef_id]
      exact hid

/-- A chat record sitting in folder A of workspace w1. -/
def chatInA : ChatMeta := { sampleMeta with folder_id := some "A" }

/-- A backend holding that chat. -/
def moveBackend : Backend := { sampleBackend with chats := [chatInA] }

/-- A session whose cache shows that chat. -/
def moveState : SessionState := { wsActiveState with chatHistory := [chatInA] }

theorem C8_moveChat_witness :
    moveState.chatHistory.find? (fun c => c.id == "c1") = some chatInA ∧
    chatInA.folder_id = some "A" ∧
    "A" ≠ "B" ∧
    moveState.activeWorkspaceId ≠ "" ∧
    (moveChatToFolderAction moveState moveBackend "c1" "B").2.2 =
      [BackendCall.removeChatFromFolderCmd "A" "c1",
       BackendCall.addChatToFolder "B" "c1",
       BackendCall.getChatsForWorkspace "w1",
       BackendCall.getFoldersForWorkspace "w1"] ∧
    (moveChatToFolderAction moveState moveBackend "c1" "B").1.chatHistory =
      (moveChatToFolderAction moveState moveBackend "c1" "B").2.1.chatsForWorkspace "w1" := by
  have h := C8_moveChat moveState moveBackend "c1" "A" "B" chatInA
    (by decide) rfl (by decide) (by decide)
  exact ⟨by decide, rfl, by decide, by decide, h.1, h.2.1⟩

/-- A two-workspace backend with w1 active. -/
def twoWsBackend : Backend where
  workspaces :=
    [{ id := "w1", name := "one", created_at := "a", last_updated_at := "b" },
     { id := "w2", name := "two", created_at := "a", last_updated_at := "b" }]
  active_workspace_id := "w1"
  chats := []
  folders := []

/-- A session scoped to w1 with a stream in flight. -/
def streamingState : SessionState :=
  { initialSessionState with activeWorkspaceId := "w1", isStreaming := true }

/-- Counterexample to claim C9 as stated: deleting the active workspace
while a stream is in flight leaves `isStreaming` true — `resetChatState`
clears the streaming accumulator but not the flag, so not all streaming
state is cleared. -/
theorem C9_counterexample :
    ¬ ((deleteWorkspaceAction streamingState twoWsBackend "w1").1.isStreaming = false) := by
  decide

/-- Claim C9, amended: after a successful deletion of the backend's active
workspace (some other workspace remaining), the client's active workspace id
is the backend-resolved new active id and references a workspace present in
the refreshed list, and the transient chat-session state — messages, current
chat id, streaming accumulator, and search state — is cleared; the
`isStreaming` flag itself is left unchanged. -/
theorem C9_deleteActiveWorkspace_amended (s : SessionState) (b : Backend)
    (wsId : String)
    (hactive : b.active_workspace_id = wsId)
    (hrem : b.workspaces.filter (fun w => w.id != wsId) ≠ []) :
    ((deleteWorkspaceAction s b wsId).1.activeWorkspaceId ∈
      (deleteWorkspaceAction s b wsId).1.workspaces.map (fun w => w.id)) ∧
    (deleteWorkspaceAction s b wsId).1.activeWorkspaceId =
      (deleteWorkspaceAction s b wsId).2.active_workspace_id ∧
    (deleteWorkspaceAction s b wsId).1.messages = [] ∧
    (deleteWorkspaceAction s b wsId).1.currentChatId = none ∧
    (deleteWorkspaceAction s b wsId).1.streamingContent = "" ∧
    (deleteWorkspaceAction s b wsId).1.searchQuery = "" ∧
    (deleteWorkspaceAction s b wsId).1.searchResults = none ∧
    (deleteWorkspaceAction s b wsId).1.isStreaming = s.isStreaming := by
  obtain ⟨w0, rest, hrw⟩ : ∃ w0 rest,
      b.workspaces.filter (fun w => w.id != wsId) = w0 :: rest := by
    cases hrw : b.workspaces.filter (fun w => w.id != wsId) with
    | nil => exact absurd hrw hrem
    | cons a l => exact ⟨a, l, rfl⟩
  have hact : (b.active_workspace_id == wsId) = true := by simp [hactive]
  have hb1active : (b.deleteWorkspace wsId).active_workspace_id = w0.id := by
    simp [Backend.deleteWorkspace, hact, hrw]
  have hb1ws : (b.deleteWorkspace wsId).workspaces = w0 :: rest := by
    simp [Backend.deleteWorkspace, hrw]
  by_cases hid0 : (w0.id == "") = true
  · simp [deleteWorkspaceAction, deleteWorkspaceBase, refreshWorkspaces, resetChatState,
      refreshChatHistory, refreshFolders, hb1active, hb1ws, hid0]
  · simp [deleteWorkspaceAction, deleteWorkspaceBase, refreshWorkspaces, resetChatState,
      refreshChatHistory, refreshFolders, hb1active, hb1ws, hid0]

theorem C9_deleteActiveWorkspace_amended_witness :
    twoWsBackend.active_workspace_id = "w1" ∧
    twoWsBackend.workspaces.filter (fun w => w.id != "w1") ≠ [] ∧
    ((deleteWorkspaceAction streamingState twoWsBackend "w1").1.activeWorkspaceId ∈
      (deleteWorkspaceAction streamingState twoWsBackend "w1").1.workspaces.map
        (fun w => w.id)) ∧
    (deleteWorkspaceAction streamingState twoWsBackend "w1").1.messages = [] ∧
    (deleteWorkspaceAction streamingState twoWsBackend "w1").1.isStreaming =
      streamingState.isStreaming := by
  have h := C9_deleteActiveWorkspace_amended streamingState twoWsBackend "w1"
    rfl (by decide)
  exact ⟨rfl, by decide, h.1, h.2.2.1, h.2.2.2.2.2.2.2⟩

end Oalpaca
